import Mathlib

/-!
Verification of the gelNN impedance-touch pipeline.

Shallow embedding of the core components:
- the press classifier (`press_classifier.py`: feature conversion, training
  preconditions, inference, drift calibration),
- the sweep-capable hardware source (`ad3_only.py`: frequency sweep,
  reactance-peak search, spectral feature extraction),
- the physical distance-attenuation model (`simulator.py` and
  `src/hils/server.py`),
- the HILS synchronization server message handling (`src/hils/server.py`),
- the local simulator data source (`simulator.py`).

Machine floats are modelled as real numbers; the pseudo-random draws
(Gaussian noise, uniform phase) are passed in as explicit parameters, and
external library objects (the sklearn MLP, the AD3 device registers) are
modelled by the values the code reads from them.
-/

namespace GelNN

/-! ## Componentwise vector arithmetic on lists (numpy array operations) -/

/-- Componentwise sum of two vectors (`numpy +` on equal-length arrays). -/
def vecAdd (a b : List ℝ) : List ℝ := List.zipWith (· + ·) a b

/-- Componentwise difference of two vectors (`numpy -`). -/
def vecSub (a b : List ℝ) : List ℝ := List.zipWith (· - ·) a b

/-- Componentwise quotient of two vectors (`numpy /`). -/
noncomputable def vecDiv (a b : List ℝ) : List ℝ := List.zipWith (· / ·) a b

/-- Mean over a list of reals (`np.mean` of a 1-D array). -/
noncomputable def npMean (l : List ℝ) : ℝ := l.sum / l.length

/-- Columnwise mean of a list of row vectors (`np.mean(rows, axis=0)`). -/
noncomputable def vecMean (rows : List (List ℝ)) : List ℝ :=
  match rows with
  | [] => []
  | r :: _ =>
      (List.range r.length).map
        (fun j => (rows.map (fun row => row.getD j 0)).sum / rows.length)

/-- Euclidean norm of a vector (`np.linalg.norm` on a 1-D array). -/
noncomputable def npNorm1 (v : List ℝ) : ℝ := Real.sqrt ((v.map (fun x => x ^ 2)).sum)

/-- Base-10 logarithm (`np.log10`). -/
noncomputable def log10 (x : ℝ) : ℝ := Real.logb 10 x

/-! ## `StandardScaler` (sklearn), as used by `press_classifier.py`

Only the fitted parameters the classifier reads and writes are modelled:
`mean_`, `scale_`, `var_`.  `transform` standardizes a vector and, exactly
like sklearn, rejects a vector whose feature count differs from the fitted
`n_features_in_` (= the length of `mean_`). -/

structure Scaler where
  mean : List ℝ
  scale : List ℝ
  var : List ℝ

/-- `n_features_in_` of a fitted scaler. -/
def Scaler.n_features_in (s : Scaler) : ℕ := s.mean.length

/-- `StandardScaler.transform` on a single sample: `(x - mean_) / scale_`.
Returns `none` when the feature count does not match the fitted
dimensionality (sklearn raises `ValueError` there). -/
noncomputable def Scaler.transform (s : Scaler) (feat : List ℝ) : Option (List ℝ) :=
  if feat.length = s.mean.length then
    some (List.zipWith (fun x p => (x - p.1) / p.2) feat (s.mean.zip s.scale))
  else none

/-! ## The press classifier (`press_classifier.py`) -/

/-- The sweep-feature dict handed to `add_sample` / `predict`, restricted to
the ten keys `_to_features` actually reads. -/
structure SweepFeatures where
  peak_freq : ℝ
  peak_magnitude : ℝ
  peak_phase : ℝ
  z_mean_low : ℝ
  z_mean_mid : ℝ
  z_mean_high : ℝ
  x_mean_low : ℝ
  x_mean_mid : ℝ
  x_mean_high : ℝ
  x_slope : ℝ

/-- State of `PressClassifierModel`.  The sklearn `MLPClassifier` is an
external library object; it is modelled by the one thing `predict` reads
from it: the probability it assigns to the press class (label 1) on a
scaled feature vector. -/
structure PressClassifierModel where
  model : Option (List ℝ → ℝ)
  scaler : Option Scaler
  calibrated_scaler : Option Scaler
  use_sweep : Bool
  X_buf : List (List ℝ)
  y_buf : List ℕ
  train_accuracy : ℝ
  test_accuracy : ℝ
  n_train_samples : ℕ

/-- `PressClassifierModel._to_features`: 2-D `[log10(mag+1), phase]` or the
10-D spectral vector, chosen by `self.use_sweep and sweep_features is not
None`. -/
noncomputable def PressClassifierModel.to_features (use_sweep : Bool)
    (magnitude phase : ℝ) (sweep_features : Option SweepFeatures) : List ℝ :=
  match use_sweep, sweep_features with
  | true, some sf =>
      [log10 sf.peak_freq, log10 (sf.peak_magnitude + 1), sf.peak_phase,
       log10 (sf.z_mean_low + 1), log10 (sf.z_mean_mid + 1), log10 (sf.z_mean_high + 1),
       sf.x_mean_low, sf.x_mean_mid, sf.x_mean_high, sf.x_slope]
  | _, _ => [log10 (magnitude + 1), phase]

inductive PredictError
  | not_ready
  | feature_count_mismatch
deriving DecidableEq

/-- `PressClassifierModel.predict`: requires model and scaler, converts the
input to features, standardizes with the calibrated scaler when one is
installed (else the trained scaler), and thresholds the press probability
at 0.5. -/
noncomputable def PressClassifierModel.predict (c : PressClassifierModel)
    (magnitude phase : ℝ) (sweep_features : Option SweepFeatures) :
    Except PredictError (ℕ × ℝ) :=
  match c.model, c.scaler with
  | some m, some sc =>
      let feat := PressClassifierModel.to_features c.use_sweep magnitude phase sweep_features
      let active_scaler := c.calibrated_scaler.getD sc
      match active_scaler.transform feat with
      | none => .error .feature_count_mismatch
      | some feat_scaled =>
          let confidence := m feat_scaled
          .ok (if (0.5 : ℝ) ≤ confidence then 1 else 0, confidence)
  | _, _ => .error .not_ready

inductive TrainError
  | insufficient_data
  | single_class_error
deriving DecidableEq

/-- What `train` obtains from the sklearn calls once the preconditions
pass: the fitted scaler, the fitted MLP (as its press-probability
function), and the accuracy metrics of the train/test split. -/
structure FitOutcome where
  model : List ℝ → ℝ
  scaler : Scaler
  train_acc : ℝ
  test_acc : ℝ
  n_train : ℕ
  n_test : ℕ

structure TrainResult where
  train_acc : ℝ
  test_acc : ℝ
  n_train : ℕ
  n_test : ℕ

/-- `PressClassifierModel.train`: rejects a buffer of fewer than 4 samples,
then a buffer whose labels contain fewer than 2 distinct classes
(`np.unique`), before any state is written; otherwise installs the fit
result. The scaler fit, stratified split and MLP fit are the external
sklearn computation, passed in as `fit`. -/
def PressClassifierModel.train (fit : List (List ℝ) → List ℕ → FitOutcome)
    (c : PressClassifierModel) :
    PressClassifierModel × Except TrainError TrainResult :=
  if c.y_buf.length < 4 then
    (c, .error .insufficient_data)
  else if c.y_buf.dedup.length < 2 then
    (c, .error .single_class_error)
  else
    let o := fit c.X_buf c.y_buf
    ({ c with model := some o.model, scaler := some o.scaler,
              train_accuracy := o.train_acc, test_accuracy := o.test_acc,
              n_train_samples := o.n_train },
     .ok ⟨o.train_acc, o.test_acc, o.n_train, o.n_test⟩)

inductive CalibrateError
  | scaler_not_loaded
  | no_calibration_samples
deriving DecidableEq

structure CalibrationResult where
  drift : List ℝ
  drift_norm : ℝ

/-- `PressClassifierModel.calibrate`: requires a loaded scaler and a
non-empty baseline batch; reports zero drift (without installing anything)
when the training buffer has no released-class samples; otherwise installs
a fresh calibrated scaler whose mean is the trained mean shifted by the
estimated drift, leaving the trained scaler untouched. -/
noncomputable def PressClassifierModel.calibrate (c : PressClassifierModel)
    (released_features : List (List ℝ)) :
    PressClassifierModel × Except CalibrateError CalibrationResult :=
  match c.scaler with
  | none => (c, .error .scaler_not_loaded)
  | some sc =>
      if released_features.isEmpty then
        (c, .error .no_calibration_samples)
      else if c.y_buf.length = 0 ∨ c.y_buf.count 0 = 0 then
        (c, .ok ⟨List.replicate (released_features.headD []).length 0, 0⟩)
      else
        let train_released_mean :=
          vecMean (((c.X_buf.zip c.y_buf).filter (fun p => p.2 = 0)).map Prod.fst)
        let calib_mean := vecMean released_features
        let drift := vecSub calib_mean train_released_mean
        let calibrated : Scaler := ⟨vecAdd sc.mean drift, sc.scale, sc.var⟩
        ({ c with calibrated_scaler := some calibrated },
         .ok ⟨drift, npNorm1 (vecDiv drift sc.scale)⟩)

/-- `PressClassifierModel.reset_calibration`: drops the calibrated scaler,
restoring the trained one. -/
def PressClassifierModel.reset_calibration (c : PressClassifierModel) :
    PressClassifierModel :=
  { c with calibrated_scaler := none }

/-! ## The sweep-capable source (`ad3_only.py`) -/

/-- A captured sweep (`sweep_impedance` result dict): parallel arrays of
frequency, |Z|, phase, R and X. -/
structure SweepData where
  frequencies : List ℝ
  magnitude : List ℝ
  phase : List ℝ
  resistance : List ℝ
  reactance : List ℝ

/-- Loop of `np.argmax` over `|reactance|`: scan left to right, keeping the
first index whose absolute value is strictly greater than the running
best. -/
noncomputable def argmaxGo : List ℝ → ℕ → ℕ → ℝ → ℕ
  | [], _, best, _ => best
  | x :: xs, i, best, bv =>
      if bv < |x| then argmaxGo xs (i + 1) i |x|
      else argmaxGo xs (i + 1) best bv

/-- `np.argmax(np.abs(l))`: the first index at which `|l|` is maximal
(0 on an empty array, where numpy instead errors). -/
noncomputable def argmaxAbs : List ℝ → ℕ
  | [] => 0
  | x :: xs => argmaxGo xs 1 0 |x|

structure XPeak where
  peak_freq : ℝ
  peak_reactance : ℝ
  peak_magnitude : ℝ
  peak_phase : ℝ
  peak_index : ℕ

/-- `AD3OnlySource.find_x_peak` on given sweep data: the point where
`|reactance|` is maximal. -/
noncomputable def find_x_peak (sd : SweepData) : XPeak :=
  let peak_idx := argmaxAbs sd.reactance
  ⟨sd.frequencies.getD peak_idx 0, sd.reactance.getD peak_idx 0,
   sd.magnitude.getD peak_idx 0, sd.phase.getD peak_idx 0, peak_idx⟩

/-- Slope of the first-order least-squares fit `np.polyfit(xs, ys, 1)[0]`. -/
noncomputable def polyfit_slope (xs ys : List ℝ) : ℝ :=
  let n : ℝ := xs.length
  let sx := xs.sum
  let sy := ys.sum
  let sxy := (List.zipWith (· * ·) xs ys).sum
  let sxx := (xs.map (fun x => x ^ 2)).sum
  (n * sxy - sx * sy) / (n * sxx - sx ^ 2)

/-- `AD3OnlySource.extract_sweep_features` on given sweep data: the
returned dict, as the ordered association list the Python dict literal
builds.  Bands are the slices `[0:n3]`, `[n3:2*n3]`, `[2*n3:n]` with
`n3 = n // 3`. -/
noncomputable def extract_sweep_features (sd : SweepData) : List (String × ℝ) :=
  let peak := find_x_peak sd
  let n := sd.frequencies.length
  let n3 := n / 3
  let x_slope := polyfit_slope (sd.frequencies.map log10) sd.reactance
  [("peak_freq", peak.peak_freq),
   ("peak_magnitude", peak.peak_magnitude),
   ("peak_phase", peak.peak_phase),
   ("peak_reactance", peak.peak_reactance),
   ("z_mean_low", npMean (sd.magnitude.take n3)),
   ("z_mean_mid", npMean ((sd.magnitude.take (2 * n3)).drop n3)),
   ("z_mean_high", npMean (sd.magnitude.drop (2 * n3))),
   ("x_mean_low", npMean (sd.reactance.take n3)),
   ("x_mean_mid", npMean ((sd.reactance.take (2 * n3)).drop n3)),
   ("x_mean_high", npMean (sd.reactance.drop (2 * n3))),
   ("x_slope", x_slope)]

/-- `np.logspace(log10 a, log10 b, n)`: n points spaced evenly on a log
scale from a to b. -/
noncomputable def logspace (a b : ℝ) (n : ℕ) : List ℝ :=
  (List.range n).map
    (fun j : ℕ => (10 : ℝ) ^ (log10 a + (j : ℝ) * (log10 b - log10 a) / ((n : ℝ) - 1)))

/-- `np.arctan2 y x`. -/
noncomputable def atan2 (y x : ℝ) : ℝ :=
  if 0 < x then Real.arctan (y / x)
  else if x < 0 then
    (if 0 ≤ y then Real.arctan (y / x) + Real.pi else Real.arctan (y / x) - Real.pi)
  else if 0 < y then Real.pi / 2
  else if y < 0 then -(Real.pi / 2)
  else 0

/-- What the AD3 device delivers for one sweep point: whether the
done-polling loop ran out of its 200 retries before `DwfStateDone`, and
the resistance / reactance registers the code then reads (the reads happen
whether or not the poll timed out). -/
structure SweepPointOutcome where
  timed_out : Bool
  r : ℝ
  x : ℝ
deriving Inhabited

/-- `AD3OnlySource.sweep_impedance` over a device trace with one outcome
per frequency point.  For every point — timed out or not — the loop stores
the R and X reads, `|Z| = sqrt (R^2+X^2)` and `phase = atan2 X R` at that
point's index; a timed-out poll additionally logs a warning.  Returns the
result dict together with the indices of the logged timeout warnings. -/
noncomputable def sweep_impedance (start_hz stop_hz : ℝ)
    (device : List SweepPointOutcome) : SweepData × List ℕ :=
  let n := device.length
  (⟨logspace start_hz stop_hz n,
    device.map (fun d => Real.sqrt (d.r ^ 2 + d.x ^ 2)),
    device.map (fun d => atan2 d.x d.r),
    device.map (fun d => d.r),
    device.map (fun d => d.x)⟩,
   (List.range n).filter (fun i => (device.getD i default).timed_out))

/-! ## The physical distance-attenuation model
(`HILSSimulatorSource._calculate_impedance` in `simulator.py`, duplicated
as `HILSServer._calculate_single_impedance` in `src/hils/server.py`) -/

/-- Difference of two 2-D points (numpy vector subtraction). -/
def vsub2 (a b : ℝ × ℝ) : ℝ × ℝ := (a.1 - b.1, a.2 - b.2)

/-- Dot product of two 2-D vectors (`np.dot`). -/
def dot2 (a b : ℝ × ℝ) : ℝ := a.1 * b.1 + a.2 * b.2

/-- `np.linalg.norm` of a 2-D vector. -/
noncomputable def npNorm (v : ℝ × ℝ) : ℝ := Real.sqrt (v.1 ^ 2 + v.2 ^ 2)

/-- Distance from the touch position to the source–sink segment, as the
code computes it: clamped projection onto the segment, with a fallback to
the distance to the source terminal when the segment is degenerate
(length below 1e-6). -/
noncomputable def segment_distance (touch_pos source_pos sink_pos : ℝ × ℝ) : ℝ :=
  let line_vec := vsub2 sink_pos source_pos
  let line_length := npNorm line_vec
  if line_length < 1e-6 then npNorm (vsub2 touch_pos source_pos)
  else
    let t := dot2 (vsub2 touch_pos source_pos) line_vec / line_length ^ 2
    let tc := min (max t 0) 1
    let closest_point := (source_pos.1 + tc * line_vec.1, source_pos.2 + tc * line_vec.2)
    npNorm (vsub2 touch_pos closest_point)

/-- `min(dist_source, dist_sink)`: distance to the nearest terminal. -/
noncomputable def min_terminal_dist (touch_pos source_pos sink_pos : ℝ × ℝ) : ℝ :=
  min (npNorm (vsub2 touch_pos source_pos)) (npNorm (vsub2 touch_pos sink_pos))

/-- `effective_dist = distance * 0.7 + min_terminal_dist * 0.3`. -/
noncomputable def effective_dist (touch_pos source_pos sink_pos : ℝ × ℝ) : ℝ :=
  segment_distance touch_pos source_pos sink_pos * 0.7 +
    min_terminal_dist touch_pos source_pos sink_pos * 0.3

/-- The saturating-exponential impedance before noise and clamping:
`BASE_IMPEDANCE + DISTANCE_FACTOR * 100 * (1 - exp(-d / 30))`. -/
noncomputable def impedance_from_dist (base_impedance distance_factor d : ℝ) : ℝ :=
  base_impedance + distance_factor * 100.0 * (1.0 - Real.exp (-d / 30.0))

/-- `HILSSimulatorSource._calculate_impedance` with the drawn Gaussian
noise value passed in explicitly: noise is added to the exponential model
and the result is clamped to the 100 Ω floor afterwards. -/
noncomputable def calculate_impedance (base_impedance distance_factor : ℝ)
    (touch_pos source_pos sink_pos : ℝ × ℝ) (noise : ℝ) : ℝ :=
  max (impedance_from_dist base_impedance distance_factor
        (effective_dist touch_pos source_pos sink_pos) + noise) 100.0

/-- Modelled from the spec for the refinement claim: the clamped-projection
distance from the touch position to the segment, exactly as §4.3 words it
(no degenerate-segment branch). -/
noncomputable def spec_segment_distance (p s k : ℝ × ℝ) : ℝ :=
  let t := dot2 (vsub2 p s) (vsub2 k s) / (npNorm (vsub2 k s)) ^ 2
  let tc := min (max t 0) 1
  npNorm (vsub2 p (s.1 + tc * (k.1 - s.1), s.2 + tc * (k.2 - s.2)))

/-- Modelled from the spec for the refinement claim: the magnitude as the
claim words it — `base + factor * 100 * (1 - exp(-d/30))` plus the drawn
noise, with `d = 0.7 * segment_distance + 0.3 * min_terminal_distance`,
clamped to the 100 Ω floor after the noise is added. -/
noncomputable def spec_magnitude (base_impedance distance_factor : ℝ)
    (p s k : ℝ × ℝ) (noise : ℝ) : ℝ :=
  let d := 0.7 * spec_segment_distance p s k +
    0.3 * min (npNorm (vsub2 p s)) (npNorm (vsub2 p k))
  max (base_impedance + distance_factor * 100.0 * (1.0 - Real.exp (-d / 30.0)) + noise)
    100.0

/-- The code's magnitude as a function of the effective distance with the
noise term fixed at zero: the exponential model followed by the 100 Ω
floor clamp. -/
noncomputable def magnitude_at_dist (base_impedance distance_factor d : ℝ) : ℝ :=
  max (impedance_from_dist base_impedance distance_factor d) 100.0

/-! ## The HILS synchronization server (`src/hils/server.py`) -/

/-- Server state: shared touch position plus the set of currently-connected
clients (modelled by identifiers). -/
structure ServerState where
  touch_x : ℝ
  touch_y : ℝ
  clients : List ℕ

/-- Outbound messages (timestamps omitted). -/
inductive OutMsg
  | state_update (touch_position : ℝ × ℝ) (client_count : ℕ)
  | impedance_response (request_id : String) (impedance_vector : List (ℝ × ℝ))
      (ground_truth : ℝ × ℝ)
  | connected (server_info : String)

/-- Inbound messages handled by `HILSServer.handle_message`. -/
inductive InMsg
  | set_touch (x y : ℝ)
  | measure_impedance (request_id : String)
  | get_state
  | connect_msg (client_id : String)

/-- `HILSServer.send_state_update`: one `state_update` message addressed to
one client with the current position and client count. -/
def send_state_update (st : ServerState) (w : ℕ) : ℕ × OutMsg :=
  (w, .state_update (st.touch_x, st.touch_y) st.clients.length)

/-- `HILSServer.broadcast_state`: the current state sent to every
connected client (nothing when no client is connected). -/
def broadcast_state (st : ServerState) : List (ℕ × OutMsg) :=
  if st.clients.isEmpty then []
  else st.clients.map (fun c => (c, OutMsg.state_update (st.touch_x, st.touch_y) st.clients.length))

/-- `HILSServer.set_touch_position`: update the shared position, then
broadcast the updated state. -/
def set_touch_position (st : ServerState) (x y : ℝ) : ServerState × List (ℕ × OutMsg) :=
  let st' := { st with touch_x := x, touch_y := y }
  (st', broadcast_state st')

/-- `HILSServer.handle_message` on a parsed message from `sender`.  The
impedance computation (`calculate_impedance` over the configured pairs
with its random draws) is the `measure` parameter.  Returns the new state
and the messages sent, as (recipient, message) pairs. -/
def handle_message (measure : ℝ → ℝ → List (ℝ × ℝ)) (st : ServerState)
    (sender : ℕ) (msg : InMsg) : ServerState × List (ℕ × OutMsg) :=
  match msg with
  | .set_touch x y => set_touch_position st x y
  | .measure_impedance rid =>
      (st, [(sender, .impedance_response rid (measure st.touch_x st.touch_y)
              (st.touch_x, st.touch_y))])
  | .get_state => (st, [send_state_update st sender])
  | .connect_msg _ => (st, [(sender, .connected "HILS Server v1.0")])

/-! ## The local simulator data source (`simulator.py`) -/

/-- State of `HILSSimulatorSource`: connection flag and the ground-truth
touch position. -/
structure HILSSimulatorSource where
  connected : Bool
  ground_truth_x : ℝ
  ground_truth_y : ℝ

/-- `HILSSimulatorSource.__init__`: disconnected, default position
(50.0, 50.0) mm. -/
noncomputable def HILSSimulatorSource.init : HILSSimulatorSource :=
  ⟨false, 50.0, 50.0⟩

/-- `HILSSimulatorSource.connect`: sets the flag, always returns True. -/
def HILSSimulatorSource.connect (s : HILSSimulatorSource) :
    HILSSimulatorSource × Bool :=
  ({ s with connected := true }, true)

/-- `HILSSimulatorSource.disconnect`. -/
def HILSSimulatorSource.disconnect (s : HILSSimulatorSource) : HILSSimulatorSource :=
  { s with connected := false }

/-- `HILSSimulatorSource.set_ground_truth`. -/
def HILSSimulatorSource.set_ground_truth (s : HILSSimulatorSource) (x y : ℝ) :
    HILSSimulatorSource :=
  { s with ground_truth_x := x, ground_truth_y := y }

/-- `HILSSimulatorSource.get_ground_truth`, typed against the
`IDataSource` contract (`Optional[Tuple[float, float]]`): the simulator
always returns its stored pair. -/
def HILSSimulatorSource.get_ground_truth (s : HILSSimulatorSource) :
    Option (ℝ × ℝ) :=
  some (s.ground_truth_x, s.ground_truth_y)

/-! ## Helper lemmas -/

theorem argmaxGo_spec (xs : List ℝ) (i best : ℕ) (bv : ℝ) :
    (argmaxGo xs i best bv = best ∧ ∀ j, j < xs.length → |xs.getD j 0| ≤ bv) ∨
    (∃ k, k < xs.length ∧ argmaxGo xs i best bv = i + k ∧ bv ≤ |xs.getD k 0| ∧
      ∀ j, j < xs.length → |xs.getD j 0| ≤ |xs.getD k 0|) := by
  induction xs generalizing i best bv with
  | nil =>
      left
      exact ⟨rfl, fun j hj => absurd hj (by simp)⟩
  | cons x xs ih =>
      rw [argmaxGo]
      by_cases h : bv < |x|
      · rw [if_pos h]
        rcases ih (i + 1) i |x| with ⟨he, hall⟩ | ⟨k, hk, he, hb, hall⟩
        · right
          refine ⟨0, by simp, by simpa using he, le_of_lt h, ?_⟩
          intro j hj
          cases j with
          | zero => simp
          | succ j =>
              simpa using hall j (by simpa using hj)
        · right
          refine ⟨k + 1, by simpa using hk, by rw [he]; omega, ?_, ?_⟩
          · simpa using le_trans (le_of_lt h) hb
          · intro j hj
            cases j with
            | zero => simpa using hb
            | succ j => simpa using hall j (by simpa using hj)
      · rw [if_neg h]
        have hxb : |x| ≤ bv := not_lt.mp h
        rcases ih (i + 1) best bv with ⟨he, hall⟩ | ⟨k, hk, he, hb, hall⟩
        · left
          refine ⟨he, ?_⟩
          intro j hj
          cases j with
          | zero => simpa using hxb
          | succ j => simpa using hall j (by simpa using hj)
        · right
          refine ⟨k + 1, by simpa using hk, by rw [he]; omega, hb, ?_⟩
          intro j hj
          cases j with
          | zero => simpa using le_trans hxb hb
          | succ j => simpa using hall j (by simpa using hj)

theorem argmaxAbs_spec (l : List ℝ) (h : l ≠ []) :
    argmaxAbs l < l.length ∧
    ∀ j, j < l.length → |l.getD j 0| ≤ |l.getD (argmaxAbs l) 0| := by
  cases l with
  | nil => exact absurd rfl h
  | cons x xs =>
      rw [argmaxAbs]
      rcases argmaxGo_spec xs 1 0 |x| with ⟨he, hall⟩ | ⟨k, hk, he, hb, hall⟩
      · rw [he]
        refine ⟨by simp, ?_⟩
        intro j hj
        cases j with
        | zero => simp
        | succ j => simpa using hall j (by simpa using hj)
      · rw [he]
        have h1k : 1 + k = k + 1 := by omega
        rw [h1k]
        refine ⟨by simpa using hk, ?_⟩
        intro j hj
        cases j with
        | zero => simpa using hb
        | succ j => simpa using hall j (by simpa using hj)

theorem dedup_length_le_one (l : List ℕ) (a : ℕ) (h : ∀ x ∈ l, x = a) :
    l.dedup.length ≤ 1 := by
  induction l with
  | nil => simp
  | cons x xs ih =>
      have hx : x = a := h x (by simp)
      cases xs with
      | nil => simp
      | cons y ys =>
          have hy : y = a := h y (by simp)
          have hmem : x ∈ y :: ys := by simp [hx, hy]
          rw [List.dedup_cons_of_mem hmem]
          exact ih (fun z hz => h z (by simp [hz]))

theorem getD_map {α β : Type} (f : α → β) (l : List α) (i : ℕ)
    (hi : i < l.length) (d : α) (d' : β) :
    (l.map f).getD i d' = f (l.getD i d) := by
  induction l generalizing i with
  | nil => simp at hi
  | cons x xs ih =>
      cases i with
      | zero => simp
      | succ i => simpa using ih i (by simpa using hi)

/-! ## Claims -/

/-- C5: for every touch position and terminal pair, the simulated magnitude
before clamping equals `base + factor * 100 * (1 - exp(-d/30))` plus the
drawn noise, with `d = 0.7 * segment distance + 0.3 * nearest-terminal
distance`, and the returned magnitude is the maximum of the noisy value
and the 100 Ω floor (clamp after noise).  Holds whenever the terminal pair
is non-degenerate (segment length at least 1e-6, the code's threshold). -/
theorem claim_C5 (base_impedance distance_factor : ℝ) (p s k : ℝ × ℝ) (noise : ℝ)
    (h : (1e-6 : ℝ) ≤ npNorm (vsub2 k s)) :
    calculate_impedance base_impedance distance_factor p s k noise =
      spec_magnitude base_impedance distance_factor p s k noise := by
  have hseg : segment_distance p s k = spec_segment_distance p s k := by
    simp only [segment_distance, spec_segment_distance]
    rw [if_neg (not_lt.mpr h)]
    simp [vsub2]
  have hed : effective_dist p s k =
      0.7 * spec_segment_distance p s k +
        0.3 * min (npNorm (vsub2 p s)) (npNorm (vsub2 p k)) := by
    simp only [effective_dist, min_terminal_dist]
    rw [hseg]; ring
  simp only [calculate_impedance, impedance_from_dist, spec_magnitude]
  rw [hed]

theorem claim_C5_witness :
    (1e-6 : ℝ) ≤ npNorm (vsub2 (100, 0) (0, 0)) ∧
    calculate_impedance 1000 5 (10, 20) (0, 0) (100, 0) 1 =
      spec_magnitude 1000 5 (10, 20) (0, 0) (100, 0) 1 := by
  have h100 : npNorm (vsub2 ((100 : ℝ), (0 : ℝ)) (0, 0)) = 100 := by
    simp only [npNorm, vsub2]
    rw [show ((100 : ℝ) - 0) ^ 2 + ((0 : ℝ) - 0) ^ 2 = 100 ^ 2 by norm_num]
    rw [Real.sqrt_sq (by norm_num : (0 : ℝ) ≤ 100)]
  have h : (1e-6 : ℝ) ≤ npNorm (vsub2 ((100 : ℝ), (0 : ℝ)) (0, 0)) := by
    rw [h100]; norm_num
  exact ⟨h, claim_C5 1000 5 (10, 20) (0, 0) (100, 0) 1 h⟩

/-- C6: with the noise term fixed at zero, the clamped magnitude is
monotonically non-decreasing in the effective distance whenever the
distance factor is non-negative. -/
theorem claim_C6 (base_impedance distance_factor d1 d2 : ℝ)
    (hdf : 0 ≤ distance_factor) (h : d1 ≤ d2) :
    magnitude_at_dist base_impedance distance_factor d1 ≤
      magnitude_at_dist base_impedance distance_factor d2 := by
  simp only [magnitude_at_dist, impedance_from_dist]
  apply max_le_max _ le_rfl
  apply add_le_add_left
  have hexp : Real.exp (-d2 / 30.0) ≤ Real.exp (-d1 / 30.0) := by
    apply Real.exp_le_exp.mpr
    linarith
  have h1 : (1.0 : ℝ) - Real.exp (-d1 / 30.0) ≤ 1.0 - Real.exp (-d2 / 30.0) := by
    linarith
  exact mul_le_mul_of_nonneg_left h1 (by positivity)

theorem claim_C6_witness :
    (0 : ℝ) ≤ 5 ∧ (0 : ℝ) ≤ 10 ∧
    magnitude_at_dist 1000 5 0 ≤ magnitude_at_dist 1000 5 10 :=
  ⟨by norm_num, by norm_num, claim_C6 1000 5 0 10 (by norm_num) (by norm_num)⟩

/-- C7: handling an accepted `set_touch {x, y}` updates the shared position
to (x, y) and then sends a `state_update` with that position and the
current client count to every currently-connected client, the sender
included; a client that never sent a request still receives it. -/
theorem claim_C7 (measure : ℝ → ℝ → List (ℝ × ℝ)) (st : ServerState)
    (sender : ℕ) (x y : ℝ) (hs : sender ∈ st.clients) :
    (handle_message measure st sender (.set_touch x y)).1.touch_x = x ∧
    (handle_message measure st sender (.set_touch x y)).1.touch_y = y ∧
    (handle_message measure st sender (.set_touch x y)).1.clients = st.clients ∧
    (∀ c ∈ st.clients,
      (c, OutMsg.state_update (x, y) st.clients.length) ∈
        (handle_message measure st sender (.set_touch x y)).2) ∧
    (sender, OutMsg.state_update (x, y) st.clients.length) ∈
      (handle_message measure st sender (.set_touch x y)).2 := by
  have hne : st.clients.isEmpty = false := by
    cases hcl : st.clients with
    | nil => rw [hcl] at hs; simp at hs
    | cons a l => simp
  have hbcast : ∀ c ∈ st.clients,
      (c, OutMsg.state_update (x, y) st.clients.length) ∈
        (handle_message measure st sender (.set_touch x y)).2 := by
    intro c hc
    show (c, OutMsg.state_update (x, y) st.clients.length) ∈
      broadcast_state { st with touch_x := x, touch_y := y }
    simp only [broadcast_state, hne, Bool.false_eq_true, if_false]
    exact List.mem_map_of_mem _ hc
  exact ⟨rfl, rfl, rfl, hbcast, hbcast sender hs⟩

theorem claim_C7_witness :
    (2 ∈ ([1, 2] : List ℕ)) ∧
    (handle_message (fun _ _ => []) ⟨50, 50, [1, 2]⟩ 2 (.set_touch 10 20)).1.touch_x = 10 ∧
    ((1 : ℕ), OutMsg.state_update (10, 20) 2) ∈
      (handle_message (fun _ _ => []) ⟨50, 50, [1, 2]⟩ 2 (.set_touch 10 20)).2 := by
  have hm : (2 : ℕ) ∈ ([1, 2] : List ℕ) := by simp
  have h := claim_C7 (fun _ _ => []) ⟨50, 50, [1, 2]⟩ 2 10 20 hm
  exact ⟨hm, h.1, h.2.2.2.1 1 (by simp)⟩

/-- C10: the local simulator's `get_ground_truth` always returns a concrete
position and never null — (50.0, 50.0) before any `set_ground_truth`, and
exactly (x, y) after `set_ground_truth(x, y)` — whether connected or
disconnected. -/
theorem claim_C10 :
    (∀ s : HILSSimulatorSource, s.get_ground_truth.isSome = true) ∧
    HILSSimulatorSource.init.get_ground_truth = some (50.0, 50.0) ∧
    (∀ (s : HILSSimulatorSource) (x y : ℝ),
      (s.set_ground_truth x y).get_ground_truth = some (x, y)) ∧
    (∀ s : HILSSimulatorSource,
      s.connect.1.get_ground_truth = s.get_ground_truth ∧
      s.disconnect.get_ground_truth = s.get_ground_truth) :=
  ⟨fun _ => rfl, rfl, fun _ _ _ => rfl, fun _ => ⟨rfl, rfl⟩⟩

theorem with_calibrated_none_eq (d : PressClassifierModel)
    (hd : d.calibrated_scaler = none) :
    ({ d with calibrated_scaler := none } : PressClassifierModel) = d := by
  cases d
  simp_all

/-- C1: drift calibration is fully reversible and never touches the trained
scaler: for a classifier that has never been calibrated, `calibrate`
leaves the fitted scaler (mean, scale, variance) unchanged, and `predict`
after `reset_calibration` returns exactly the pre-calibration result on
every input. -/
theorem claim_C1 (c : PressClassifierModel) (batch : List (List ℝ))
    (h : c.calibrated_scaler = none) (magnitude phase : ℝ)
    (sf : Option SweepFeatures) :
    (PressClassifierModel.calibrate c batch).1.scaler = c.scaler ∧
    PressClassifierModel.predict
        (PressClassifierModel.reset_calibration (PressClassifierModel.calibrate c batch).1)
        magnitude phase sf
      = PressClassifierModel.predict c magnitude phase sf := by
  have key2 : (PressClassifierModel.calibrate c batch).1 = c ∨
      ∃ cal, (PressClassifierModel.calibrate c batch).1 =
        { c with calibrated_scaler := some cal } := by
    unfold PressClassifierModel.calibrate
    split
    · left; rfl
    · split
      · left; rfl
      · split
        · left; rfl
        · right; exact ⟨_, rfl⟩
  rcases key2 with hk | ⟨cal, hk⟩
  · rw [hk]
    refine ⟨rfl, ?_⟩
    show PressClassifierModel.predict ({ c with calibrated_scaler := none }) magnitude phase sf =
      PressClassifierModel.predict c magnitude phase sf
    rw [with_calibrated_none_eq c h]
  · rw [hk]
    refine ⟨rfl, ?_⟩
    show PressClassifierModel.predict ({ c with calibrated_scaler := none }) magnitude phase sf =
      PressClassifierModel.predict c magnitude phase sf
    rw [with_calibrated_none_eq c h]

/-- A trained 2-D classifier state used to instantiate C1. -/
noncomputable def c1_example : PressClassifierModel :=
  ⟨some (fun _ => 0.7), some ⟨[0, 0], [1, 1], [1, 1]⟩, none, false,
   [[1, 2]], [0], 1, 1, 1⟩

theorem claim_C1_witness :
    c1_example.calibrated_scaler = none ∧
    PressClassifierModel.predict
        (PressClassifierModel.reset_calibration
          (PressClassifierModel.calibrate c1_example [[2, 3]]).1) 5 0 none
      = PressClassifierModel.predict c1_example 5 0 none :=
  ⟨rfl, (claim_C1 c1_example [[2, 3]] rfl 5 0 none).2⟩

/-- C4: training fails with the insufficient-data error on 3 or fewer
samples, and with the single-class error on 4 or more samples that all
carry one label; in both cases the classifier state is left unchanged (no
model fitted). -/
theorem claim_C4 (fit : List (List ℝ) → List ℕ → FitOutcome)
    (c : PressClassifierModel) :
    (c.y_buf.length ≤ 3 →
      PressClassifierModel.train fit c = (c, .error .insufficient_data)) ∧
    (4 ≤ c.y_buf.length → (∃ a, ∀ x ∈ c.y_buf, x = a) →
      PressClassifierModel.train fit c = (c, .error .single_class_error)) := by
  constructor
  · intro h
    unfold PressClassifierModel.train
    rw [if_pos (by omega)]
  · rintro h ⟨a, ha⟩
    unfold PressClassifierModel.train
    rw [if_neg (by omega),
      if_pos (by have := dedup_length_le_one c.y_buf a ha; omega)]

/-- A classifier with a 3-sample buffer, instantiating the first part of C4. -/
noncomputable def c4_small : PressClassifierModel :=
  ⟨none, none, none, false, [[1, 1], [2, 2], [3, 3]], [0, 1, 0], 0, 0, 0⟩

/-- A classifier whose 4-sample buffer carries a single label,
instantiating the second part of C4. -/
noncomputable def c4_single : PressClassifierModel :=
  ⟨none, none, none, false, [[1, 1], [2, 2], [3, 3], [4, 4]], [1, 1, 1, 1], 0, 0, 0⟩

/-- A concrete stand-in for the sklearn fitting stage. -/
noncomputable def fit_example : List (List ℝ) → List ℕ → FitOutcome :=
  fun _ _ => ⟨fun _ => 0, ⟨[], [], []⟩, 0, 0, 0, 0⟩

theorem claim_C4_witness :
    (c4_small.y_buf.length ≤ 3 ∧
      PressClassifierModel.train fit_example c4_small =
        (c4_small, .error .insufficient_data)) ∧
    (4 ≤ c4_single.y_buf.length ∧
      PressClassifierModel.train fit_example c4_single =
        (c4_single, .error .single_class_error)) :=
  ⟨⟨by simp [c4_small], (claim_C4 fit_example c4_small).1 (by simp [c4_small])⟩,
   ⟨by simp [c4_single],
    (claim_C4 fit_example c4_single).2 (by simp [c4_single])
      ⟨1, by simp [c4_single]⟩⟩⟩

/-- C9: with a loaded scaler, calibrating on an empty baseline batch fails
with the no-samples error, leaving the state unchanged (no calibrated
scaler installed); the graceful zero-drift report happens only when the
training buffer holds no released-class samples, and it also installs
nothing. -/
theorem claim_C9 (c : PressClassifierModel) (sc : Scaler)
    (h : c.scaler = some sc) :
    PressClassifierModel.calibrate c [] = (c, .error .no_calibration_samples) ∧
    (∀ batch : List (List ℝ), batch ≠ [] → c.y_buf.count 0 = 0 →
      PressClassifierModel.calibrate c batch =
        (c, .ok ⟨List.replicate (batch.headD []).length 0, 0⟩)) := by
  constructor
  · unfold PressClassifierModel.calibrate
    rw [h]
    rfl
  · intro batch hb hcount
    unfold PressClassifierModel.calibrate
    rw [h]
    simp only [List.isEmpty_iff]
    rw [if_neg hb, if_pos (Or.inr hcount)]

/-- A classifier with a loaded 2-feature scaler and a released-class
sample in the buffer, instantiating the first part of C9. -/
noncomputable def c9_example : PressClassifierModel :=
  ⟨some (fun _ => 0.7), some ⟨[0, 0], [1, 1], [1, 1]⟩, none, false,
   [[1, 2]], [0], 1, 1, 1⟩

/-- A classifier whose buffer has no released-class samples,
instantiating the zero-drift part of C9. -/
noncomputable def c9_nozero : PressClassifierModel :=
  ⟨some (fun _ => 0.7), some ⟨[0, 0], [1, 1], [1, 1]⟩, none, false,
   [[1, 2], [3, 4]], [1, 1], 1, 1, 2⟩

theorem claim_C9_witness :
    (c9_example.scaler = some ⟨[0, 0], [1, 1], [1, 1]⟩ ∧
      PressClassifierModel.calibrate c9_example [] =
        (c9_example, .error .no_calibration_samples)) ∧
    (c9_nozero.y_buf.count 0 = 0 ∧
      PressClassifierModel.calibrate c9_nozero [[5, 6]] =
        (c9_nozero, .ok ⟨List.replicate ([5, 6] : List ℝ).length 0, 0⟩)) :=
  ⟨⟨rfl, (claim_C9 c9_example ⟨[0, 0], [1, 1], [1, 1]⟩ rfl).1⟩,
   ⟨by simp [c9_nozero],
    (claim_C9 c9_nozero ⟨[0, 0], [1, 1], [1, 1]⟩ rfl).2 [[5, 6]]
      (by simp) (by simp [c9_nozero])⟩⟩

/-- A trained 2-D-mode classifier (use_sweep = false, 2-feature scaler). -/
noncomputable def c3_twod : PressClassifierModel :=
  ⟨some (fun _ => 0.7), some ⟨[0, 0], [1, 1], [1, 1]⟩, none, false,
   [[1, 2], [3, 4]], [0, 1], 1, 1, 2⟩

/-- A trained spectral-mode classifier (use_sweep = true, 10-feature scaler). -/
noncomputable def c3_spectral : PressClassifierModel :=
  ⟨some (fun _ => 0.7), some ⟨List.replicate 10 0, List.replicate 10 1, List.replicate 10 1⟩,
   none, true, [[1, 2]], [0], 1, 1, 1⟩

/-- A concrete spectral feature record. -/
noncomputable def sf_example : SweepFeatures :=
  ⟨5000, 1200, 0.1, 1100, 1150, 1250, 30, 40, 50, 12⟩

/-- C3 fails on the code: a 2-D-trained classifier given spectral features
does not raise — `_to_features` ignores the sweep dict when `use_sweep` is
false, and `predict` returns a (label, confidence) result. -/
theorem claim_C3_counterexample :
    PressClassifierModel.predict c3_twod 100 0 (some sf_example) =
      .ok (1, 0.7) := by
  simp only [PressClassifierModel.predict, c3_twod, PressClassifierModel.to_features,
    Scaler.transform, Option.getD]
  norm_num

/-- C3 amended: a spectral-trained (10-feature) classifier given only
(magnitude, phase) fails with the feature-count mismatch raised at the
scaling step; but a 2-D-trained classifier given spectral features does
not fail — it ignores them and predicts from (magnitude, phase) exactly
as if they had not been passed. -/
theorem claim_C3 :
    (∀ (c : PressClassifierModel) (sc : Scaler) (f : List ℝ → ℝ)
        (magnitude phase : ℝ),
      c.use_sweep = true → c.model = some f → c.scaler = some sc →
      c.calibrated_scaler = none → sc.mean.length = 10 →
      PressClassifierModel.predict c magnitude phase none =
        .error .feature_count_mismatch) ∧
    (∀ (c : PressClassifierModel) (magnitude phase : ℝ) (sf : SweepFeatures),
      c.use_sweep = false →
      PressClassifierModel.predict c magnitude phase (some sf) =
        PressClassifierModel.predict c magnitude phase none) := by
  constructor
  · intro c sc f magnitude phase hu hm hsc hcal hlen
    simp only [PressClassifierModel.predict, hm, hsc, hcal, Option.getD,
      PressClassifierModel.to_features, hu, Scaler.transform]
    rw [if_neg (by simp [hlen])]
  · intro c magnitude phase sf hu
    have hf : PressClassifierModel.to_features c.use_sweep magnitude phase (some sf) =
        PressClassifierModel.to_features c.use_sweep magnitude phase none := by
      rw [hu]
      rfl
    unfold PressClassifierModel.predict
    rw [hf]

theorem claim_C3_witness :
    (PressClassifierModel.predict c3_spectral 100 0 none =
      .error .feature_count_mismatch) ∧
    (PressClassifierModel.predict c3_twod 100 0 (some sf_example) =
      PressClassifierModel.predict c3_twod 100 0 none) :=
  ⟨claim_C3.1 c3_spectral
      ⟨List.replicate 10 0, List.replicate 10 1, List.replicate 10 1⟩
      (fun _ => 0.7) 100 0 rfl rfl rfl rfl (by simp),
   claim_C3.2 c3_twod 100 0 sf_example rfl⟩

/-- A concrete 3-point sweep used to count the extractor's fields. -/
noncomputable def sweep_eleven : SweepData :=
  ⟨[2000, 3000, 4000], [10, 11, 12], [0.1, 0.2, 0.3], [9, 9, 9], [1, -5, 2]⟩

/-- C2 fails on the code: the feature record has 11 named fields, not 10 —
the ten of the spec plus `peak_reactance`. -/
theorem claim_C2_counterexample :
    ((extract_sweep_features sweep_eleven).map Prod.fst).length = 11 ∧
    ((extract_sweep_features sweep_eleven).map Prod.fst).length ≠ 10 := by
  constructor
  · rfl
  · intro hc
    simp only [extract_sweep_features] at hc
    simp at hc

/-- C2 amended: for every sweep with matching array lengths and at least
one point, `extract_sweep_features` returns a record with exactly 11 named
fields — the spec's 10 plus `peak_reactance`, in the dict's construction
order — and its `peak_freq` field equals the frequency at the (first)
index where the absolute reactance is maximal. -/
theorem claim_C2 (sd : SweepData) (hne : sd.reactance ≠ [])
    (hlen : sd.frequencies.length = sd.reactance.length) :
    ((extract_sweep_features sd).map Prod.fst =
      ["peak_freq", "peak_magnitude", "peak_phase", "peak_reactance",
       "z_mean_low", "z_mean_mid", "z_mean_high",
       "x_mean_low", "x_mean_mid", "x_mean_high", "x_slope"]) ∧
    (extract_sweep_features sd).lookup "peak_freq" =
      some (sd.frequencies.getD (argmaxAbs sd.reactance) 0) ∧
    argmaxAbs sd.reactance < sd.frequencies.length ∧
    (∀ j, j < sd.reactance.length →
      |sd.reactance.getD j 0| ≤ |sd.reactance.getD (argmaxAbs sd.reactance) 0|) := by
  obtain ⟨hbound, hmax⟩ := argmaxAbs_spec sd.reactance hne
  refine ⟨?_, ?_, by omega, hmax⟩
  · simp [extract_sweep_features]
  · simp [extract_sweep_features, find_x_peak, List.lookup]

theorem claim_C2_witness :
    (sweep_eleven.reactance ≠ [] ∧
      sweep_eleven.frequencies.length = sweep_eleven.reactance.length) ∧
    (extract_sweep_features sweep_eleven).lookup "peak_freq" =
      some (sweep_eleven.frequencies.getD (argmaxAbs sweep_eleven.reactance) 0) :=
  ⟨⟨by simp [sweep_eleven], rfl⟩,
   (claim_C2 sweep_eleven (by simp [sweep_eleven]) rfl).2.1⟩

/-- A device trace whose first point times out but still delivers register
reads, and whose second point succeeds. -/
noncomputable def device_bad : List SweepPointOutcome :=
  [⟨true, 3, 4⟩, ⟨false, 1, 0⟩]

/-- C8 fails on the code: the sweep point whose done-polling timed out is
not skipped — the values read right after the aborted poll are stored at
its index (resistance 3 at index 0 here), while the timeout is logged
(warning index 0) and the sweep continues to the next point. -/
theorem claim_C8_counterexample :
    (sweep_impedance 2000 20000 device_bad).1.resistance = [3, 1] ∧
    (sweep_impedance 2000 20000 device_bad).1.resistance.length = 2 ∧
    (sweep_impedance 2000 20000 device_bad).2 = [0] := by
  refine ⟨rfl, rfl, ?_⟩
  simp [sweep_impedance, device_bad, List.filter]

/-- C8 amended: a single-point timeout is logged and the sweep continues
over the remaining points, but the point is not skipped: the values read
after the aborted poll enter the returned sweep at that point's index, so
every array of the result always has one entry per frequency point. -/
theorem claim_C8 (start_hz stop_hz : ℝ) (device : List SweepPointOutcome) :
    (sweep_impedance start_hz stop_hz device).1.resistance.length = device.length ∧
    (sweep_impedance start_hz stop_hz device).1.reactance.length = device.length ∧
    (sweep_impedance start_hz stop_hz device).1.magnitude.length = device.length ∧
    (sweep_impedance start_hz stop_hz device).1.phase.length = device.length ∧
    (sweep_impedance start_hz stop_hz device).1.frequencies.length = device.length ∧
    (∀ i, i < device.length →
      (sweep_impedance start_hz stop_hz device).1.resistance.getD i 0 =
        (device.getD i default).r ∧
      (sweep_impedance start_hz stop_hz device).1.reactance.getD i 0 =
        (device.getD i default).x) ∧
    (∀ i, i ∈ (sweep_impedance start_hz stop_hz device).2 ↔
      (i < device.length ∧ (device.getD i default).timed_out = true)) := by
  refine ⟨by simp [sweep_impedance], by simp [sweep_impedance],
    by simp [sweep_impedance], by simp [sweep_impedance],
    ?_, ?_, ?_⟩
  · show (logspace start_hz stop_hz device.length).length = device.length
    rw [logspace, List.length_map, List.length_range]
  · intro i hi
    constructor
    · show (device.map (fun d => d.r)).getD i 0 = (device.getD i default).r
      exact getD_map (fun d => d.r) device i hi default 0
    · show (device.map (fun d => d.x)).getD i 0 = (device.getD i default).x
      exact getD_map (fun d => d.x) device i hi default 0
  · intro i
    simp [sweep_impedance, List.mem_filter, List.mem_range]

/-- A fully successful single-point device trace. -/
noncomputable def device_ok : List SweepPointOutcome :=
  [⟨false, 2, 1⟩]

theorem claim_C8_witness :
    ((0 : ℕ) < device_ok.length ∧
      (sweep_impedance 2000 20000 device_ok).1.resistance.getD 0 0 =
        (device_ok.getD 0 default).r) ∧
    ((0 : ℕ) ∈ (sweep_impedance 2000 20000 device_ok).2 ↔
      (0 < device_ok.length ∧ (device_ok.getD 0 default).timed_out = true)) := by
  have h := claim_C8 2000 20000 device_ok
  have h0 : (0 : ℕ) < device_ok.length := by simp [device_ok]
  exact ⟨⟨h0, (h.2.2.2.2.2.1 0 h0).1⟩, h.2.2.2.2.2.2 0⟩

end GelNN
